import Mathlib

/-!
# Verification of the OTP dispatch pipeline (smsDemo)

Shallow embedding of the OTP dispatch pipeline: OTP generation
(`generateOTP` in `otpService.js`), sensitive-data masking
(`maskSensitive`), OTP verification (`verifyOTP`), the dispatch
orchestrator (`sendOTP`), the retry controller (`retrySendOTP`), the
transport timeout computation (`postData` in `apiService.js`) and the
signed government gateway adapter (`sendSmsOtp` in `fetchExample.js`,
including real SHA-1 / SHA-512 implementations).

Modelling conventions:
* JavaScript values that may be `null` are modelled as `Option`.
* `Math.random()` draws are explicit oracle parameters
  (`Nat → Fin 10` for OTP digit draws, `Nat → ℚ` for jitter draws in
  `[0, 1)`).
* The network is an explicit `TransportOutcome` per attempt: the
  underlying `postData` call either resolves to a result object or
  rejects with an error message.
* Wall-clock time is a discrete-event virtual clock: it advances by the
  computed backoff waits and by an oracle-supplied duration per
  transport call.
* Machine integers are `Nat`/`Int` with explicit `% 2^w` in the hash
  implementations.
-/

/-! ## Codec: `generateOTP` (otpService.js lines 10-19 / 223-235)

`generateOTP(length = 6)` builds a string by appending
`digits[Math.floor(Math.random() * 10)]` for `i = 0 .. length-1`.
The random draw is the oracle `rand : Nat → Fin 10`; `digits[k]` is the
character with code `48 + k`. A JavaScript `for (let i = 0; i < length;
i++)` loop with an integer `length` runs `max length 0` times, so the
model takes `length : Int` and runs `length.toNat` iterations. -/

def otpDigitChar (v : Fin 10) : Char := Char.ofNat (48 + v.val)

def generateOTPm (length : Int) (rand : Nat → Fin 10) : String :=
  ⟨(List.range length.toNat).map (fun i => otpDigitChar (rand i))⟩

/-! ## Sensitive-Data Masker: `maskSensitive` (otpService.js lines 202-216)

Returns the input unchanged when it is `null`/empty/not a string or its
length is at most `visibleStart + visibleEnd`; otherwise
`substring(0, visibleStart) ++ "*".repeat(len - visibleStart -
visibleEnd) ++ substring(len - visibleEnd)`. -/

def maskSensitive (text : Option String) (visibleStart visibleEnd : Nat) :
    Option String :=
  match text with
  | none => none
  | some s =>
      if s.isEmpty ∨ s.length ≤ visibleStart + visibleEnd then some s
      else some ⟨s.data.take visibleStart ++
        List.replicate (s.length - visibleStart - visibleEnd) '*' ++
        s.data.drop (s.length - visibleEnd)⟩

/-! ## Verifier: `verifyOTP` (otpService.js lines 427-474)

`options.caseSensitive !== false` selects strict `===` comparison;
otherwise `String(provided).toLowerCase() ===
String(expected).toLowerCase()`. `String(null)` is `"null"`. -/

inductive JSStr where
  | null : JSStr
  | str : String → JSStr
deriving DecidableEq

def jsToString : JSStr → String
  | JSStr.null => "null"
  | JSStr.str s => s

/-- `String.prototype.toLowerCase()`: lower-case every character. -/
def jsToLower (s : String) : String := ⟨s.data.map Char.toLower⟩

def verifyOTPm (provided expected : JSStr) (caseSensitive : Option Bool) :
    Bool :=
  if caseSensitive ≠ some false then decide (provided = expected)
  else jsToLower (jsToString provided) == jsToLower (jsToString expected)

/-! ## Transport deadline: `postData` (apiService.js lines 45-92)

`axiosOptions.timeout = (options.timeout || 30000) + Math.floor(
Math.random() * 500)`. A missing or zero caller timeout falls back to
30000 (JavaScript `||` treats `0` as falsy). The jitter draw `r` is a
rational in `[0, 1)`. -/

def postDataBaseTimeout (optTimeout : Option Nat) : Nat :=
  match optTimeout with
  | none => 30000
  | some t => if t = 0 then 30000 else t

def postDataAppliedTimeout (optTimeout : Option Nat) (r : ℚ) : ℚ :=
  (postDataBaseTimeout optTimeout : ℚ) + (⌊r * 500⌋ : ℤ)

/-! ## Dispatch Orchestrator: `sendOTP` (otpService.js lines 252-418)

The orchestrator validates the mobile number (`!mobileNumber ||
mobileNumber.length < 10` throws, caught by the surrounding
`try`/`catch` which returns `success: false` with message
`"Failed to send OTP: " + error.message` and performs no transport
call), generates an OTP when none is supplied (`otp || generateOTP()`),
then awaits `postData`. When `postData` resolves — with any result
object `r`, including `r.success = false` — the orchestrator returns
`success: true, message: "OTP sent successfully"`. When the awaited
call rejects, the `catch` branch returns `success: false`.
`transportCalls` counts the `postData` invocations of the call. -/

structure PostResult where
  success : Bool
  status : Nat
  error : Option String
deriving DecidableEq

inductive TransportOutcome where
  | resolve : PostResult → TransportOutcome
  | reject : String → TransportOutcome
deriving DecidableEq

def TransportOutcome.isReject : TransportOutcome → Bool
  | TransportOutcome.resolve _ => false
  | TransportOutcome.reject _ => true

structure SendResult where
  success : Bool
  message : String
  otp : Option String
  response : Option PostResult
deriving DecidableEq

structure SendOutcome where
  result : SendResult
  transportCalls : Nat
deriving DecidableEq

def mobileInvalid : Option String → Bool
  | none => true
  | some s => s.isEmpty || decide (s.length < 10)

def sendOTPm (mobileNumber : Option String) (otp : Option String)
    (rand : Nat → Fin 10) (transport : TransportOutcome) : SendOutcome :=
  if mobileInvalid mobileNumber then
    { result := { success := false,
                  message := "Failed to send OTP: Invalid mobile number",
                  otp := none, response := none },
      transportCalls := 0 }
  else
    let otpToSend :=
      match otp with
      | none => generateOTPm 6 rand
      | some s => if s.isEmpty then generateOTPm 6 rand else s
    match transport with
    | TransportOutcome.resolve r =>
        { result := { success := true, message := "OTP sent successfully",
                      otp := some otpToSend, response := some r },
          transportCalls := 1 }
    | TransportOutcome.reject msg =>
        { result := { success := false,
                      message := "Failed to send OTP: " ++ msg,
                      otp := none, response := none },
          transportCalls := 1 }

/-! ## Retry Controller: `retrySendOTP` (otpService.js lines 483-592)

`while (attempt < maxRetries) { attempt++; backoff; sendOTP; ... }`.
The backoff computed for attempt `k` is
`k > 1 ? 2^(k-1) * 1000 + Math.random() * 500 : 0`, with the jitter
draw for attempt `k` given by the oracle `jitters k ∈ [0, 1)`.
Each attempt `k` calls `sendOTP(mobileNumber, null, retryOptions)`
whose transport behaviour is `transports k` and whose OTP digit oracle
is `rands k`; the call itself takes `durs k` milliseconds of virtual
time. On the first `result.success` the enriched result is returned;
when the loop exhausts `maxRetries` attempts the function throws an
enhanced `Error` carrying `attempts = maxRetries`, the total elapsed
time and the last error. -/

structure EnhancedError where
  message : String
  attempts : Nat
  totalDurationMs : ℚ
  originalError : Option String
deriving DecidableEq

inductive RetryResult where
  | returned : SendResult → Nat → ℚ → RetryResult
  | thrown : EnhancedError → RetryResult
deriving DecidableEq

def RetryResult.isThrown : RetryResult → Bool
  | RetryResult.returned _ _ _ => false
  | RetryResult.thrown _ => true

structure RetryTrace where
  result : RetryResult
  attemptsMade : Nat
  backoffs : List ℚ
deriving DecidableEq

def backoffAt (jitters : Nat → ℚ) (attempt : Nat) : ℚ :=
  if attempt > 1 then 2 ^ (attempt - 1) * 1000 + jitters attempt * 500
  else 0

def retryGo (mobile : Option String) (maxRetries : Nat)
    (transports : Nat → TransportOutcome) (rands : Nat → Nat → Fin 10)
    (jitters : Nat → ℚ) (durs : Nat → ℚ) :
    Nat → Nat → Option String → ℚ → List ℚ → Nat → RetryTrace
  | 0, _, lastMsg, elapsed, backs, made =>
      { result := RetryResult.thrown
          { message := "Failed to send OTP after " ++ toString maxRetries ++
              " attempts: " ++ lastMsg.getD "Unknown error",
            attempts := maxRetries,
            totalDurationMs := elapsed,
            originalError := lastMsg },
        attemptsMade := made, backoffs := backs }
  | n + 1, attempt, _lastMsg, elapsed, backs, made =>
      let backoff := backoffAt jitters attempt
      let s := sendOTPm mobile none (rands attempt) (transports attempt)
      let elapsed2 := elapsed + backoff + durs attempt
      if s.result.success then
        { result := RetryResult.returned s.result attempt elapsed2,
          attemptsMade := made + 1, backoffs := backs ++ [backoff] }
      else
        retryGo mobile maxRetries transports rands jitters durs n
          (attempt + 1) (some s.result.message) elapsed2
          (backs ++ [backoff]) (made + 1)

def retrySendOTPm (mobile : Option String) (maxRetries : Nat)
    (transports : Nat → TransportOutcome) (rands : Nat → Nat → Fin 10)
    (jitters : Nat → ℚ) (durs : Nat → ℚ) : RetryTrace :=
  retryGo mobile maxRetries transports rands jitters durs maxRetries 1
    none 0 [] 0

/-! Helper closed-form pieces for the exhausted-retry characterisation. -/

def attemptMsg (mobile : Option String) (transports : Nat → TransportOutcome)
    (rands : Nat → Nat → Fin 10) (k : Nat) : String :=
  (sendOTPm mobile none (rands k) (transports k)).result.message

def lastMsgOf (mobile : Option String) (transports : Nat → TransportOutcome)
    (rands : Nat → Nat → Fin 10) :
    Nat → Nat → Option String → Option String
  | 0, _, lastMsg => lastMsg
  | n + 1, attempt, _ =>
      lastMsgOf mobile transports rands n (attempt + 1)
        (some (attemptMsg mobile transports rands attempt))

def costFrom (f : Nat → ℚ) : Nat → Nat → ℚ
  | 0, _ => 0
  | n + 1, attempt => f attempt + costFrom f n (attempt + 1)

def backoffListFrom (jitters : Nat → ℚ) : Nat → Nat → List ℚ
  | 0, _ => []
  | n + 1, attempt =>
      backoffAt jitters attempt :: backoffListFrom jitters n (attempt + 1)

/-! ## Byte encodings

`crypto.createHash(...).update(str, "iso-8859-1")` encodes each UTF-16
code unit as its low byte; for the strings in this repository (all code
points below 256) that is `c.toNat % 256` per character.
`update(str)` without an encoding uses UTF-8. -/

def latin1Bytes (s : String) : List Nat :=
  s.data.map (fun c => c.toNat % 256)

/-- `String.prototype.trim()`: strip whitespace from both ends. -/
def jsTrim (s : String) : String :=
  ⟨((s.data.dropWhile Char.isWhitespace).reverse.dropWhile
      Char.isWhitespace).reverse⟩

def utf8EncodeChar (n : Nat) : List Nat :=
  if n < 128 then [n]
  else if n < 2048 then
    [192 + (n / 64), 128 + (n % 64)]
  else if n < 65536 then
    [224 + (n / 4096), 128 + ((n / 64) % 64), 128 + (n % 64)]
  else
    [240 + (n / 262144), 128 + ((n / 4096) % 64), 128 + ((n / 64) % 64),
     128 + (n % 64)]

def utf8Bytes (s : String) : List Nat :=
  (s.data.map (fun c => utf8EncodeChar c.toNat)).flatten

/-! ## Hex encoding (`digest("hex")`, lowercase) -/

def hexDigit (n : Nat) : Char :=
  if n < 10 then Char.ofNat (48 + n) else Char.ofNat (87 + n)

def bytesToHex (bs : List Nat) : String :=
  ⟨(bs.map (fun b => [hexDigit (b / 16), hexDigit (b % 16)])).flatten⟩

/-! ## SHA-512 (FIPS 180-4), words as `Nat` mod `2^64` -/

def w64 : Nat := 18446744073709551616

def add64 (a b : Nat) : Nat := (a + b) % w64

def rotr64 (x n : Nat) : Nat :=
  ((x >>> n) ||| (x <<< (64 - n))) % w64

def not64 (x : Nat) : Nat := x ^^^ (w64 - 1)

def bigSigma0 (x : Nat) : Nat := rotr64 x 28 ^^^ rotr64 x 34 ^^^ rotr64 x 39

def bigSigma1 (x : Nat) : Nat := rotr64 x 14 ^^^ rotr64 x 18 ^^^ rotr64 x 41

def smallSigma0 (x : Nat) : Nat := rotr64 x 1 ^^^ rotr64 x 8 ^^^ (x >>> 7)

def smallSigma1 (x : Nat) : Nat := rotr64 x 19 ^^^ rotr64 x 61 ^^^ (x >>> 6)

def ch64 (x y z : Nat) : Nat := (x &&& y) ^^^ (not64 x &&& z)

def maj64 (x y z : Nat) : Nat := (x &&& y) ^^^ (x &&& z) ^^^ (y &&& z)

def sha512K : List Nat :=
  [4794697086780616226, 8158064640168781261, 13096744586834688815,
    16840607885511220156, 4131703408338449720, 6480981068601479193,
    10538285296894168987, 12329834152419229976, 15566598209576043074,
    1334009975649890238, 2608012711638119052, 6128411473006802146,
    8268148722764581231, 9286055187155687089, 11230858885718282805,
    13951009754708518548, 16472876342353939154, 17275323862435702243,
    1135362057144423861, 2597628984639134821, 3308224258029322869,
    5365058923640841347, 6679025012923562964, 8573033837759648693,
    10970295158949994411, 12119686244451234320, 12683024718118986047,
    13788192230050041572, 14330467153632333762, 15395433587784984357,
    489312712824947311, 1452737877330783856, 2861767655752347644,
    3322285676063803686, 5560940570517711597, 5996557281743188959,
    7280758554555802590, 8532644243296465576, 9350256976987008742,
    10552545826968843579, 11727347734174303076, 12113106623233404929,
    14000437183269869457, 14369950271660146224, 15101387698204529176,
    15463397548674623760, 17586052441742319658, 1182934255886127544,
    1847814050463011016, 2177327727835720531, 2830643537854262169,
    3796741975233480872, 4115178125766777443, 5681478168544905931,
    6601373596472566643, 7507060721942968483, 8399075790359081724,
    8693463985226723168, 9568029438360202098, 10144078919501101548,
    10430055236837252648, 11840083180663258601, 13761210420658862357,
    14299343276471374635, 14566680578165727644, 15097957966210449927,
    16922976911328602910, 17689382322260857208, 500013540394364858,
    748580250866718886, 1242879168328830382, 1977374033974150939,
    2944078676154940804, 3659926193048069267, 4368137639120453308,
    4836135668995329356, 5532061633213252278, 6448918945643986474,
    6902733635092675308, 7801388544844847127]

def sha512H0 : List Nat :=
  [7640891576956012808, 13503953896175478587, 4354685564936845355,
    11912009170470909681, 5840696475078001361, 11170449401992604703,
    2270897969802886507, 6620516959819538809]

/-- Split a byte list into chunks of `sz` bytes (fuel = list length). -/
def chunksAux (sz : Nat) : Nat → List Nat → List (List Nat)
  | 0, _ => []
  | _, [] => []
  | fuel + 1, l => l.take sz :: chunksAux sz fuel (l.drop sz)

def chunks (sz : Nat) (l : List Nat) : List (List Nat) :=
  chunksAux sz l.length l

/-- Big-endian word from a list of bytes. -/
def bytesToWord (bs : List Nat) : Nat :=
  bs.foldl (fun acc b => acc * 256 + b) 0

/-- Big-endian bytes of a number, `n` bytes wide. -/
def wordToBytes : Nat → Nat → List Nat
  | 0, _ => []
  | n + 1, x => wordToBytes n (x / 256) ++ [x % 256]

/-- SHA-512 padding: `0x80`, zeros, then the 128-bit bit length;
total length a multiple of 128 bytes. -/
def sha512Pad (msg : List Nat) : List Nat :=
  let l := msg.length
  let z := (128 - ((l + 17) % 128)) % 128
  msg ++ [128] ++ List.replicate z 0 ++ wordToBytes 16 (l * 8)

/-- Extend the 16 message words to 80 schedule words. -/
def sha512Extend : List Nat → Nat → List Nat
  | ws, 0 => ws
  | ws, n + 1 =>
      let t := ws.length
      let w := add64
        (add64 (smallSigma1 (ws.getD (t - 2) 0)) (ws.getD (t - 7) 0))
        (add64 (smallSigma0 (ws.getD (t - 15) 0)) (ws.getD (t - 16) 0))
      sha512Extend (ws ++ [w]) n

/-- One compression round, state as an 8-word list `[a,b,c,d,e,f,g,h]`. -/
def sha512Round (st : List Nat) (kw : Nat × Nat) : List Nat :=
  match st with
  | [a, b, c, d, e, f, g, h] =>
      let t1 := add64 h (add64 (bigSigma1 e)
        (add64 (ch64 e f g) (add64 kw.1 kw.2)))
      let t2 := add64 (bigSigma0 a) (maj64 a b c)
      [add64 t1 t2, a, b, c, add64 d t1, e, f, g]
  | other => other

def sha512Block (h : List Nat) (block : List Nat) : List Nat :=
  let ws := sha512Extend ((chunks 8 block).map bytesToWord) 64
  let st := (sha512K.zip ws).foldl sha512Round h
  (h.zip st).map (fun p => add64 p.1 p.2)

def sha512Bytes (msg : List Nat) : List Nat :=
  let hFinal := (chunks 128 (sha512Pad msg)).foldl sha512Block sha512H0
  (hFinal.map (wordToBytes 8)).flatten

def sha512Hex (msg : List Nat) : String := bytesToHex (sha512Bytes msg)

/-! ## SHA-1 (FIPS 180-4), words as `Nat` mod `2^32` -/

def w32 : Nat := 4294967296

def add32 (a b : Nat) : Nat := (a + b) % w32

def rotl32 (x n : Nat) : Nat :=
  ((x <<< n) ||| (x >>> (32 - n))) % w32

def not32 (x : Nat) : Nat := x ^^^ (w32 - 1)

def sha1F (t x y z : Nat) : Nat :=
  if t < 20 then (x &&& y) ||| (not32 x &&& z)
  else if t < 40 then x ^^^ y ^^^ z
  else if t < 60 then (x &&& y) ||| (x &&& z) ||| (y &&& z)
  else x ^^^ y ^^^ z

def sha1K (t : Nat) : Nat :=
  if t < 20 then 1518500249
  else if t < 40 then 1859775393
  else if t < 60 then 2400959708
  else 3395469782

def sha1H0 : List Nat :=
  [1732584193, 4023233417, 2562383102, 271733878, 3285377520]

def sha1Pad (msg : List Nat) : List Nat :=
  let l := msg.length
  let z := (64 - ((l + 9) % 64)) % 64
  msg ++ [128] ++ List.replicate z 0 ++ wordToBytes 8 (l * 8)

def sha1Extend : List Nat → Nat → List Nat
  | ws, 0 => ws
  | ws, n + 1 =>
      let t := ws.length
      let w := rotl32
        (ws.getD (t - 3) 0 ^^^ ws.getD (t - 8) 0 ^^^
         ws.getD (t - 14) 0 ^^^ ws.getD (t - 16) 0) 1
      sha1Extend (ws ++ [w]) n

def sha1Round (st : List Nat) (tw : Nat × Nat) : List Nat :=
  match st with
  | [a, b, c, d, e] =>
      let temp := add32 (rotl32 a 5)
        (add32 (sha1F tw.1 b c d) (add32 e (add32 (sha1K tw.1) tw.2)))
      [temp, a, rotl32 b 30, c, d]
  | other => other

def sha1Block (h : List Nat) (block : List Nat) : List Nat :=
  let ws := sha1Extend ((chunks 4 block).map bytesToWord) 64
  let st := ((List.range 80).zip ws).foldl sha1Round h
  (h.zip st).map (fun p => add32 p.1 p.2)

def sha1Bytes (msg : List Nat) : List Nat :=
  let hFinal := (chunks 64 (sha1Pad msg)).foldl sha1Block sha1H0
  (hFinal.map (wordToBytes 4)).flatten

def sha1Hex (msg : List Nat) : String := bytesToHex (sha1Bytes msg)

/-! ## Signed Government Adapter: `sendSmsOtp` (fetchExample.js lines 137-257)

The adapter composes `message = "<prefix> <otp> <suffix>"`, computes
`encryptedPassword = SHA1(password, "iso-8859-1")` hex-encoded,
`generatedHashKey = SHA512(trim(username) + trim(senderId) +
trim(message) + trim(secureKey))` hex-encoded (UTF-8 input), and builds
the form-encoded parameter record sent to the gateway. `cfg` is the
merged configuration (defaults overridden by caller options). -/

structure SmsConfig where
  username : String
  password : String
  senderId : String
  secureKey : String
  templateId : String
  messagePre : String
  messageSuf : String

def smsDefaults : SmsConfig :=
  { username := "NCoGSMS", password := "NcOg!10#20$", senderId := "NCOGIT",
    secureKey := "0008031b-89f6-41d7-a771-c64a077e3e70",
    templateId := "1307165847021622765",
    messagePre := "Your OTP is",
    messageSuf := "- Digital India Corporation" }

structure SmsParams where
  mobileno : String
  senderid : String
  content : String
  smsservicetype : String
  username : String
  password : String
  key : String
  templateid : String

def smsMessage (cfg : SmsConfig) (otp : String) : String :=
  cfg.messagePre ++ " " ++ otp ++ " " ++ cfg.messageSuf

def sendSmsOtpParams (mobileNumber otp : String) (cfg : SmsConfig) :
    SmsParams :=
  let message := smsMessage cfg otp
  let encryptedPassword := sha1Hex (latin1Bytes cfg.password)
  let inputString := jsTrim cfg.username ++ jsTrim cfg.senderId ++
    jsTrim message ++ jsTrim cfg.secureKey
  let generatedHashKey := sha512Hex (utf8Bytes inputString)
  { mobileno := mobileNumber, senderid := cfg.senderId, content := message,
    smsservicetype := "otpmsg", username := cfg.username,
    password := encryptedPassword, key := generatedHashKey,
    templateid := cfg.templateId }

/-- The `/api/test-sms` handler (same signing steps, message given
directly as a literal rather than composed from prefix/otp/suffix). -/
def testSmsKey (username senderId message secureKey : String) : String :=
  sha512Hex (utf8Bytes (jsTrim username ++ jsTrim senderId ++
    jsTrim message ++ jsTrim secureKey))

/-! ## Result accessors and concrete oracles used by witnesses -/

def RetryResult.thrownError : RetryResult → Option EnhancedError
  | RetryResult.returned _ _ _ => none
  | RetryResult.thrown e => some e

/-- Transport oracle whose every call rejects (connection failure). -/
def tr0 : Nat → TransportOutcome :=
  fun _ => TransportOutcome.reject "connect ECONNREFUSED 10.194.81.45:8080"

/-- A resolved transport result that reports failure (`success: false`),
as the real `postData` produces for a non-2xx status or a caught
transport error such as a timeout. -/
def failRes : PostResult :=
  { success := false, status := 0, error := some "timeout of 30500ms exceeded" }

def rnd0 : Nat → Fin 10 := fun _ => 0

def rnds0 : Nat → Nat → Fin 10 := fun _ _ => 0

def jit0 : Nat → ℚ := fun _ => 0

def dur0 : Nat → ℚ := fun _ => 0

/-! ## Helper lemmas -/

theorem sendOTPm_invalid (mobile otp : Option String) (rand : Nat → Fin 10)
    (t : TransportOutcome) (h : mobileInvalid mobile = true) :
    sendOTPm mobile otp rand t =
      { result := { success := false,
                    message := "Failed to send OTP: Invalid mobile number",
                    otp := none, response := none },
        transportCalls := 0 } := by
  simp [sendOTPm, h]

theorem sendOTPm_reject_success (mobile otp : Option String)
    (rand : Nat → Fin 10) (msg : String) :
    (sendOTPm mobile otp rand
      (TransportOutcome.reject msg)).result.success = false := by
  by_cases h : mobileInvalid mobile <;> simp [sendOTPm, h]

theorem sendOTPm_isReject_success (mobile otp : Option String)
    (rand : Nat → Fin 10) (t : TransportOutcome) (h : t.isReject = true) :
    (sendOTPm mobile otp rand t).result.success = false := by
  cases t with
  | resolve r => simp [TransportOutcome.isReject] at h
  | reject m => exact sendOTPm_reject_success mobile otp rand m

theorem sendOTPm_resolve_success (mobile otp : Option String)
    (rand : Nat → Fin 10) (r : PostResult) (h : mobileInvalid mobile = false) :
    (sendOTPm mobile otp rand
      (TransportOutcome.resolve r)).result.success = true := by
  cases otp with
  | none => simp [sendOTPm, h]
  | some s =>
      by_cases hs : s.isEmpty <;> simp [sendOTPm, h, hs]
theorem retryGo_allFail (mobile : Option String) (maxRetries : Nat)
    (transports : Nat → TransportOutcome) (rands : Nat → Nat → Fin 10)
    (jitters : Nat → ℚ) (durs : Nat → ℚ) :
    ∀ (n attempt : Nat) (lastMsg : Option String) (elapsed : ℚ)
      (backs : List ℚ) (made : Nat),
      (∀ k, attempt ≤ k → k < attempt + n →
        (sendOTPm mobile none (rands k) (transports k)).result.success
          = false) →
      retryGo mobile maxRetries transports rands jitters durs n attempt
          lastMsg elapsed backs made =
        { result := RetryResult.thrown
            { message := "Failed to send OTP after " ++ toString maxRetries
                ++ " attempts: " ++
                (lastMsgOf mobile transports rands n attempt lastMsg).getD
                  "Unknown error",
              attempts := maxRetries,
              totalDurationMs := elapsed +
                costFrom (fun k => backoffAt jitters k + durs k) n attempt,
              originalError :=
                lastMsgOf mobile transports rands n attempt lastMsg },
          attemptsMade := made + n,
          backoffs := backs ++ backoffListFrom jitters n attempt } := by
  intro n
  induction n with
  | zero =>
      intro attempt lastMsg elapsed backs made _
      simp [retryGo, lastMsgOf, costFrom, backoffListFrom]
  | succ n ih =>
      intro attempt lastMsg elapsed backs made hfail
      have hf : (sendOTPm mobile none (rands attempt)
          (transports attempt)).result.success = false :=
        hfail attempt le_rfl (by omega)
      rw [retryGo]
      simp only [hf, Bool.false_eq_true, if_false]
      rw [ih (attempt + 1) (some ((sendOTPm mobile none (rands attempt)
            (transports attempt)).result.message))
          (elapsed + backoffAt jitters attempt + durs attempt)
          (backs ++ [backoffAt jitters attempt]) (made + 1)
          (fun k hk1 hk2 => hfail k (by omega) (by omega))]
      simp only [lastMsgOf, attemptMsg, costFrom, backoffListFrom,
        RetryTrace.mk.injEq, RetryResult.thrown.injEq,
        EnhancedError.mk.injEq]
      refine ⟨⟨trivial, trivial, by ring, trivial⟩, by omega, by simp⟩

theorem lastMsgOf_pos (mobile : Option String)
    (transports : Nat → TransportOutcome) (rands : Nat → Nat → Fin 10) :
    ∀ (n attempt : Nat) (lastMsg : Option String),
      lastMsgOf mobile transports rands (n + 1) attempt lastMsg =
        some (attemptMsg mobile transports rands (attempt + n)) := by
  intro n
  induction n with
  | zero => intro attempt lastMsg; simp [lastMsgOf]
  | succ n ih =>
      intro attempt lastMsg
      rw [lastMsgOf, ih]
      have h : attempt + 1 + n = attempt + (n + 1) := by omega
      rw [h]
/-- C1 (corrected): `sendOTP` never lets an exception escape and returns
`success = false` whenever the underlying `postData` call rejects
(throws); but when `postData` resolves to a failure result object with
`success = false` — which is how the real transport reports non-2xx
statuses and caught transport errors, including timeouts — `sendOTP`
still returns `success = true`. -/
theorem sendOTP_failure_reporting (mobile otp : Option String)
    (rand : Nat → Fin 10) (msg : String) (r : PostResult) :
    (sendOTPm mobile otp rand
      (TransportOutcome.reject msg)).result.success = false ∧
    (mobileInvalid mobile = false →
      (sendOTPm mobile otp rand
        (TransportOutcome.resolve r)).result.success = true) :=
  ⟨sendOTPm_reject_success mobile otp rand msg,
   fun h => sendOTPm_resolve_success mobile otp rand r h⟩

/-- Witness for C1 at a concrete valid mobile number, a rejecting
transport and a resolved failure result. -/
theorem sendOTP_failure_reporting_witness :
    (sendOTPm (some "9876543210") (some "1234") rnd0
      (TransportOutcome.reject "socket hang up")).result.success = false ∧
    (sendOTPm (some "9876543210") (some "1234") rnd0
      (TransportOutcome.resolve failRes)).result.success = true := by
  have h := sendOTP_failure_reporting (some "9876543210") (some "1234")
    rnd0 "socket hang up" failRes
  exact ⟨h.1, h.2 (by decide)⟩

/-- C1 counterexample: the transport resolves to a failure result
(`success = false`, a caught timeout), yet `sendOTP` reports
`success = true`. -/
theorem sendOTP_resolvedFailure_counterexample :
    failRes.success = false ∧
    (sendOTPm (some "9876543210") (some "1234") rnd0
      (TransportOutcome.resolve failRes)).result.success = true := by
  decide

/-- C5 (confirmed): for a missing, empty or shorter-than-10 mobile
number, `sendOTP` returns `success = false` with the invalid-input
failure message and performs zero transport (`postData`) calls. -/
theorem sendOTP_invalidInput_noNetwork (mobile otp : Option String)
    (rand : Nat → Fin 10) (t : TransportOutcome)
    (h : mobileInvalid mobile = true) :
    (sendOTPm mobile otp rand t).transportCalls = 0 ∧
    (sendOTPm mobile otp rand t).result.success = false ∧
    (sendOTPm mobile otp rand t).result.message =
      "Failed to send OTP: Invalid mobile number" := by
  rw [sendOTPm_invalid mobile otp rand t h]
  exact ⟨rfl, rfl, rfl⟩

/-- Witness for C5 at `mobileNumber = "123"`. -/
theorem sendOTP_invalidInput_noNetwork_witness :
    mobileInvalid (some "123") = true ∧
    ((sendOTPm (some "123") none rnd0 (tr0 0)).transportCalls = 0 ∧
     (sendOTPm (some "123") none rnd0 (tr0 0)).result.success = false ∧
     (sendOTPm (some "123") none rnd0 (tr0 0)).result.message =
       "Failed to send OTP: Invalid mobile number") :=
  ⟨by decide, sendOTP_invalidInput_noNetwork (some "123") none rnd0 (tr0 0)
    (by decide)⟩

/-- C7 (corrected): the deadline `postData` hands to the HTTP client is
the caller-supplied timeout (default 30000 when absent or zero) plus a
jitter of `Math.floor(Math.random() * 500)` ms, hence it lies in
`[base, base + 500)` — it does not equal the caller-supplied value
exactly. -/
theorem postData_timeout_bounds (optTimeout : Option Nat) (r : ℚ)
    (h0 : 0 ≤ r) (h1 : r < 1) :
    (postDataBaseTimeout optTimeout : ℚ) ≤
      postDataAppliedTimeout optTimeout r ∧
    postDataAppliedTimeout optTimeout r <
      (postDataBaseTimeout optTimeout : ℚ) + 500 ∧
    postDataBaseTimeout none = 30000 ∧
    (∀ t : Nat, t ≠ 0 → postDataBaseTimeout (some t) = t) := by
  have hmul0 : (0 : ℚ) ≤ r * 500 := by positivity
  have hmul1 : r * 500 < 500 := by nlinarith
  have hf0 : (0 : ℤ) ≤ ⌊r * 500⌋ := Int.floor_nonneg.mpr hmul0
  have hf1 : ⌊r * 500⌋ < 500 := by
    have := Int.floor_le (r * 500)
    exact_mod_cast Int.floor_lt.mpr (by exact_mod_cast hmul1)
  refine ⟨?_, ?_, rfl, fun t ht => by simp [postDataBaseTimeout, ht]⟩
  · unfold postDataAppliedTimeout
    have : (0 : ℚ) ≤ (⌊r * 500⌋ : ℤ) := by exact_mod_cast hf0
    linarith
  · unfold postDataAppliedTimeout
    have : ((⌊r * 500⌋ : ℤ) : ℚ) < 500 := by exact_mod_cast hf1
    linarith

/-- Witness for C7 at `timeout = 5000`, `r = 1/2`. -/
theorem postData_timeout_bounds_witness :
    (0 : ℚ) ≤ 1 / 2 ∧ (1 / 2 : ℚ) < 1 ∧
    ((postDataBaseTimeout (some 5000) : ℚ) ≤
       postDataAppliedTimeout (some 5000) (1 / 2) ∧
     postDataAppliedTimeout (some 5000) (1 / 2) <
       (postDataBaseTimeout (some 5000) : ℚ) + 500 ∧
     postDataBaseTimeout none = 30000 ∧
     (∀ t : Nat, t ≠ 0 → postDataBaseTimeout (some t) = t)) :=
  ⟨by norm_num, by norm_num,
   postData_timeout_bounds (some 5000) (1 / 2) (by norm_num) (by norm_num)⟩

/-- C7 counterexample: with caller timeout 5000 ms and jitter draw 1/2
the applied deadline is 5250 ms, not the caller-supplied 5000 ms. -/
theorem postData_timeout_counterexample :
    postDataAppliedTimeout (some 5000) (1 / 2) = 5250 ∧
    postDataAppliedTimeout (some 5000) (1 / 2) ≠ 5000 := by
  constructor <;>
    norm_num [postDataAppliedTimeout, postDataBaseTimeout]
/-- C8 (corrected): for every `length > 0`, `generateOTP` returns a
string of exactly `length` characters, each a decimal digit
`'0'..'9'`; but it never signals `InvalidArgument`: for `length ≤ 0`
the loop body never runs and the empty string is returned silently. -/
theorem generateOTP_spec (length : Int) (rand : Nat → Fin 10) :
    (length ≤ 0 → generateOTPm length rand = "") ∧
    (0 < length →
      ((generateOTPm length rand).length : Int) = length ∧
      ∀ c ∈ (generateOTPm length rand).data, '0' ≤ c ∧ c ≤ '9') := by
  have hdig : ∀ v : Fin 10, '0' ≤ otpDigitChar v ∧ otpDigitChar v ≤ '9' := by
    decide
  constructor
  · intro h
    have hz : length.toNat = 0 := Int.toNat_of_nonpos h
    simp [generateOTPm, hz]
  · intro h
    constructor
    · have hl : (generateOTPm length rand).length = length.toNat := by
        simp [generateOTPm, String.length]
      rw [hl]
      exact Int.toNat_of_nonneg (le_of_lt h)
    · intro c hc
      simp only [generateOTPm, List.mem_map] at hc
      obtain ⟨i, _, rfl⟩ := hc
      exact hdig (rand i)

/-- Witness for C8 at `length = 6`. -/
theorem generateOTP_spec_witness :
    (0 : Int) < 6 ∧
    (((generateOTPm 6 rnd0).length : Int) = 6 ∧
     ∀ c ∈ (generateOTPm 6 rnd0).data, '0' ≤ c ∧ c ≤ '9') :=
  ⟨by norm_num, (generateOTP_spec 6 rnd0).2 (by norm_num)⟩

/-- C8 counterexample: for non-positive lengths `generateOTP` silently
returns the empty string instead of signalling `InvalidArgument`. -/
theorem generateOTP_nonpositive_counterexample :
    generateOTPm 0 rnd0 = "" ∧ generateOTPm (-3) rnd0 = "" := by
  decide
/-- C9 (confirmed): `maskSensitive` returns the value unchanged when it
is `null`, empty, or its length is at most `visibleStart + visibleEnd`;
otherwise it returns a string of the same length whose first
`visibleStart` and last `visibleEnd` characters are preserved and whose
middle is all `'*'`; in particular
`maskSensitive "9876543210" 4 2 = "9876****10"` and
`maskSensitive "ab" 4 2 = "ab"`. -/
theorem maskSensitive_spec :
    (∀ visibleStart visibleEnd,
      maskSensitive none visibleStart visibleEnd = none) ∧
    (∀ (s : String) visibleStart visibleEnd,
      s.length ≤ visibleStart + visibleEnd →
      maskSensitive (some s) visibleStart visibleEnd = some s) ∧
    (∀ (s : String) visibleStart visibleEnd,
      visibleStart + visibleEnd < s.length →
      ∃ r, maskSensitive (some s) visibleStart visibleEnd = some r ∧
        r.length = s.length ∧
        r.data.take visibleStart = s.data.take visibleStart ∧
        r.data.drop (r.length - visibleEnd) =
          s.data.drop (s.length - visibleEnd) ∧
        ∀ c ∈ (r.data.drop visibleStart).take
            (s.length - visibleStart - visibleEnd), c = '*') ∧
    maskSensitive (some "9876543210") 4 2 = some "9876****10" ∧
    maskSensitive (some "ab") 4 2 = some "ab" := by
  refine ⟨fun _ _ => rfl, ?_, ?_, by decide, by decide⟩
  · intro s vs ve h
    simp [maskSensitive, h]
  · intro s vs ve h
    have hlen : s.length = s.data.length := rfl
    have hcond : ¬ (s.isEmpty = true ∨ s.length ≤ vs + ve) := by
      rintro (he | hle)
      · rw [String.isEmpty_iff] at he
        subst he
        simp at h
      · omega
    rw [maskSensitive, if_neg hcond]
    set A := s.data.take vs with hA
    set B := List.replicate (s.length - vs - ve) '*' with hB
    set C := s.data.drop (s.length - ve) with hC
    have hAlen : A.length = vs := by
      rw [hA, List.length_take]
      omega
    have hBlen : B.length = s.length - vs - ve := by
      rw [hB, List.length_replicate]
    have hClen : C.length = ve := by
      rw [hC, List.length_drop]
      omega
    refine ⟨⟨A ++ B ++ C⟩, rfl, ?_, ?_, ?_, ?_⟩
    · show (A ++ B ++ C).length = s.length
      rw [List.length_append, List.length_append, hAlen, hBlen, hClen]
      omega
    · show (A ++ B ++ C).take vs = s.data.take vs
      rw [List.append_assoc, List.take_left' hAlen, hA]
    · show (A ++ B ++ C).drop ((A ++ B ++ C).length - ve) =
        s.data.drop (s.length - ve)
      have hab : (A ++ B).length = s.length - ve := by
        rw [List.length_append, hAlen, hBlen]
        omega
      have htot : (A ++ B ++ C).length - ve = (A ++ B).length := by
        rw [List.length_append, hab, hClen]
        omega
      rw [htot, List.drop_left, hC]
    · intro c hc
      rw [List.append_assoc, List.drop_left' hAlen,
        List.take_left' hBlen] at hc
      exact List.eq_of_mem_replicate hc

/-- Witness for C9: the short string `"ab"` is returned unchanged. -/
theorem maskSensitive_spec_witness :
    "ab".length ≤ 4 + 2 ∧ maskSensitive (some "ab") 4 2 = some "ab" :=
  ⟨by decide, maskSensitive_spec.2.1 "ab" 4 2 (by decide)⟩

/-- C10 (confirmed): `verifyOTP` returns `true` exactly when the
provided value strictly equals the expected one (and, with
`caseSensitive: false`, exactly when the lowercase forms of their
string conversions are equal); it never throws, `null`/empty inputs are
non-matching unless exactly equal, and
`verifyOTP "AB12" "ab12" {caseSensitive: false} = true`. -/
theorem verifyOTP_spec :
    (∀ p e cs, cs ≠ some false → (verifyOTPm p e cs = true ↔ p = e)) ∧
    (∀ p e cs, cs = some false →
      (verifyOTPm p e cs = true ↔
        jsToLower (jsToString p) = jsToLower (jsToString e))) ∧
    verifyOTPm (JSStr.str "1234") (JSStr.str "1234") none = true ∧
    verifyOTPm (JSStr.str "1234") (JSStr.str "1235") none = false ∧
    verifyOTPm (JSStr.str "AB12") (JSStr.str "ab12") (some false) = true ∧
    verifyOTPm JSStr.null JSStr.null none = true ∧
    verifyOTPm JSStr.null (JSStr.str "") none = false := by
  refine ⟨?_, ?_, by decide, by decide, by decide, by decide, by decide⟩
  · intro p e cs h
    simp [verifyOTPm, h]
  · intro p e cs h
    subst h
    simp [verifyOTPm]

/-- Witness for C10: case-insensitive comparison of `"AB12"` and
`"ab12"` succeeds. -/
theorem verifyOTP_spec_witness :
    (some false : Option Bool) = some false ∧
    verifyOTPm (JSStr.str "AB12") (JSStr.str "ab12") (some false) = true :=
  ⟨rfl, (verifyOTP_spec.2.1 (JSStr.str "AB12") (JSStr.str "ab12")
      (some false) rfl).mpr (by decide)⟩
/-- C2 (corrected): `retrySendOTP` does not exempt `InvalidInput`
validation failures from retrying: `sendOTP` converts the validation
throw into `success = false`, which the retry loop treats like any
transport failure, so for a mobile number shorter than 10 characters it
makes exactly `maxRetries` dispatch attempts (not at most one) and then
throws the composite error. -/
theorem retrySendOTP_invalidInput_retries (mobile : Option String)
    (maxRetries : Nat) (transports : Nat → TransportOutcome)
    (rands : Nat → Nat → Fin 10) (jitters : Nat → ℚ) (durs : Nat → ℚ)
    (h : mobileInvalid mobile = true) :
    (retrySendOTPm mobile maxRetries transports rands jitters
      durs).attemptsMade = maxRetries ∧
    (retrySendOTPm mobile maxRetries transports rands jitters
      durs).result.isThrown = true := by
  have hrw := retryGo_allFail mobile maxRetries transports rands jitters
    durs maxRetries 1 none 0 [] 0
    (fun k _ _ => by
      rw [sendOTPm_invalid mobile none (rands k) (transports k) h])
  unfold retrySendOTPm
  rw [hrw]
  exact ⟨Nat.zero_add maxRetries, rfl⟩

/-- Witness for C2: `mobileNumber = "123"`, `maxRetries = 3`. -/
theorem retrySendOTP_invalidInput_retries_witness :
    mobileInvalid (some "123") = true ∧
    ((retrySendOTPm (some "123") 3 tr0 rnds0 jit0 dur0).attemptsMade = 3 ∧
     (retrySendOTPm (some "123") 3 tr0 rnds0 jit0
       dur0).result.isThrown = true) :=
  ⟨by decide, retrySendOTP_invalidInput_retries (some "123") 3 tr0 rnds0
    jit0 dur0 (by decide)⟩

/-- C2 counterexample: with the invalid mobile number `"123"` and
`maxRetries = 3`, the retry controller makes 3 dispatch attempts, not
at most one. -/
theorem retrySendOTP_invalidInput_counterexample :
    (retrySendOTPm (some "123") 3 tr0 rnds0 jit0 dur0).attemptsMade = 3 ∧
    ¬ (retrySendOTPm (some "123") 3 tr0 rnds0 jit0
        dur0).attemptsMade ≤ 1 := by
  decide
/-- C3 (corrected): when all `maxRetries` attempts fail,
`retrySendOTP` does not return a result object — it throws an enhanced
`Error` whose fields carry the last underlying error message, the
attempt count (`attempts = maxRetries`) and the total elapsed time
(the sum of all backoff waits and per-attempt call durations). -/
theorem retrySendOTP_exhaustion_throws (mobile : Option String)
    (maxRetries : Nat) (transports : Nat → TransportOutcome)
    (rands : Nat → Nat → Fin 10) (jitters : Nat → ℚ) (durs : Nat → ℚ)
    (hpos : 1 ≤ maxRetries)
    (hfail : ∀ k, 1 ≤ k → k ≤ maxRetries →
      (sendOTPm mobile none (rands k) (transports k)).result.success
        = false) :
    (retrySendOTPm mobile maxRetries transports rands jitters
        durs).result.thrownError =
      some { message := "Failed to send OTP after " ++ toString maxRetries
               ++ " attempts: " ++ attemptMsg mobile transports rands
                 maxRetries,
             attempts := maxRetries,
             totalDurationMs :=
               costFrom (fun k => backoffAt jitters k + durs k)
                 maxRetries 1,
             originalError :=
               some (attemptMsg mobile transports rands maxRetries) } := by
  obtain ⟨n, rfl⟩ : ∃ n, maxRetries = n + 1 := ⟨maxRetries - 1, by omega⟩
  have hrw := retryGo_allFail mobile (n + 1) transports rands jitters durs
    (n + 1) 1 none 0 [] 0 (fun k hk1 hk2 => hfail k hk1 (by omega))
  have hidx : 1 + n = n + 1 := Nat.add_comm 1 n
  unfold retrySendOTPm
  rw [hrw]
  simp only [RetryResult.thrownError,
    lastMsgOf_pos mobile transports rands, hidx, Option.getD_some,
    zero_add]

/-- Witness for C3: a transport that rejects on every attempt,
`maxRetries = 3`. -/
theorem retrySendOTP_exhaustion_throws_witness :
    (1 ≤ 3) ∧
    (retrySendOTPm (some "9876543210") 3 tr0 rnds0 jit0
        dur0).result.thrownError =
      some { message := "Failed to send OTP after " ++ toString 3
               ++ " attempts: " ++ attemptMsg (some "9876543210") tr0
                 rnds0 3,
             attempts := 3,
             totalDurationMs :=
               costFrom (fun k => backoffAt jit0 k + dur0 k) 3 1,
             originalError :=
               some (attemptMsg (some "9876543210") tr0 rnds0 3) } :=
  ⟨by norm_num,
   retrySendOTP_exhaustion_throws (some "9876543210") 3 tr0 rnds0 jit0
     dur0 (by norm_num)
     (fun k _ _ => sendOTPm_reject_success (some "9876543210") none
       (rnds0 k) "connect ECONNREFUSED 10.194.81.45:8080")⟩

/-- C3 counterexample: at a concrete all-failing transport the retry
controller throws rather than returning a result. -/
theorem retrySendOTP_throws_counterexample :
    (retrySendOTPm (some "9876543210") 3 tr0 rnds0 jit0
      dur0).result.isThrown = true := by
  decide
/-- C4 (corrected): with `maxRetries = 3` and a transport whose every
attempt rejects, `retrySendOTP` makes exactly 3 attempts and throws;
the backoff computed for attempt `k > 1` is
`2^(k-1) * 1000 + random() * 500`, so the delay before the second
attempt lies in `[2000, 2500)` ms and the delay before the third lies
in `[4000, 4500)` ms — not `[1000, 1500)` and `[2000, 2500)`. -/
theorem retrySendOTP_backoff_bounds (mobile : Option String)
    (transports : Nat → TransportOutcome) (rands : Nat → Nat → Fin 10)
    (jitters : Nat → ℚ) (durs : Nat → ℚ)
    (hrej : ∀ k, 1 ≤ k → k ≤ 3 → (transports k).isReject = true)
    (hjit : ∀ k, 0 ≤ jitters k ∧ jitters k < 1) :
    (retrySendOTPm mobile 3 transports rands jitters durs).attemptsMade
      = 3 ∧
    (retrySendOTPm mobile 3 transports rands jitters
      durs).result.isThrown = true ∧
    (retrySendOTPm mobile 3 transports rands jitters durs).backoffs =
      [0, 2000 + jitters 2 * 500, 4000 + jitters 3 * 500] ∧
    2000 ≤ 2000 + jitters 2 * 500 ∧ 2000 + jitters 2 * 500 < 2500 ∧
    4000 ≤ 4000 + jitters 3 * 500 ∧ 4000 + jitters 3 * 500 < 4500 := by
  have hrw := retryGo_allFail mobile 3 transports rands jitters durs 3 1
    none 0 [] 0
    (fun k hk1 hk2 => sendOTPm_isReject_success mobile none (rands k)
      (transports k) (hrej k hk1 (by omega)))
  have hj2a : (0 : ℚ) ≤ jitters 2 * 500 :=
    mul_nonneg (hjit 2).1 (by norm_num)
  have hj2b : jitters 2 * 500 < 500 := by
    have := mul_lt_mul_of_pos_right (hjit 2).2 (show (0 : ℚ) < 500 by
      norm_num)
    linarith [this]
  have hj3a : (0 : ℚ) ≤ jitters 3 * 500 :=
    mul_nonneg (hjit 3).1 (by norm_num)
  have hj3b : jitters 3 * 500 < 500 := by
    have := mul_lt_mul_of_pos_right (hjit 3).2 (show (0 : ℚ) < 500 by
      norm_num)
    linarith [this]
  refine ⟨?_, ?_, ?_, by linarith, by linarith, by linarith, by linarith⟩
  · unfold retrySendOTPm
    rw [hrw]
  · unfold retrySendOTPm
    rw [hrw]
    rfl
  · unfold retrySendOTPm
    rw [hrw]
    show [] ++ backoffListFrom jitters 3 1 = _
    simp only [backoffListFrom, backoffAt, List.nil_append]
    norm_num
/-- Witness for C4: all-rejecting transport, zero jitter draws. -/
theorem retrySendOTP_backoff_bounds_witness :
    (retrySendOTPm (some "9876543210") 3 tr0 rnds0 jit0
      dur0).attemptsMade = 3 ∧
    (retrySendOTPm (some "9876543210") 3 tr0 rnds0 jit0
      dur0).result.isThrown = true ∧
    (retrySendOTPm (some "9876543210") 3 tr0 rnds0 jit0 dur0).backoffs =
      [0, 2000 + jit0 2 * 500, 4000 + jit0 3 * 500] ∧
    2000 ≤ 2000 + jit0 2 * 500 ∧ 2000 + jit0 2 * 500 < 2500 ∧
    4000 ≤ 4000 + jit0 3 * 500 ∧ 4000 + jit0 3 * 500 < 4500 :=
  retrySendOTP_backoff_bounds (some "9876543210") tr0 rnds0 jit0 dur0
    (fun _ _ _ => rfl)
    (fun _ => ⟨le_refl 0, by show (0 : ℚ) < 1; norm_num⟩)

/-- C4 counterexample: with zero jitter the computed backoffs are
`[0, 2000, 4000]`; the delay before the second attempt is 2000 ms,
which does not lie in `[1000, 1500)`. -/
theorem retrySendOTP_backoff_counterexample :
    (retrySendOTPm (some "9876543210") 3 tr0 rnds0 jit0 dur0).backoffs =
      [0, 2000, 4000] ∧
    ¬ ((1000 : ℚ) ≤ 2000 ∧ (2000 : ℚ) < 1500) := by
  constructor
  · have hrw := retryGo_allFail (some "9876543210") 3 tr0 rnds0 jit0 dur0
      3 1 none 0 [] 0
      (fun k _ _ => sendOTPm_reject_success (some "9876543210") none
        (rnds0 k) "connect ECONNREFUSED 10.194.81.45:8080")
    unfold retrySendOTPm
    rw [hrw]
    show [] ++ backoffListFrom jit0 3 1 = _
    simp only [backoffListFrom, backoffAt, List.nil_append, jit0]
    norm_num
  · norm_num

set_option maxRecDepth 1000000 in
/-- C6 (confirmed): the signed government adapter sends `password`
equal to the hex-encoded SHA-1 of the configured password interpreted
in ISO-8859-1, and `key` equal to the hex-encoded SHA-512 of
`trim(username) ++ trim(senderId) ++ trim(message) ++ trim(secureKey)`
where `message = "<prefix> <otp> <suffix>"`; in particular for
`username = "U"`, `senderId = "S"`, `message = "M"`,
`secureKey = "K"` the key equals `SHA512("USMK")` hex-encoded, whose
known-answer value is asserted literally (together with the SHA-1
known-answer for the default password). -/
theorem sendSmsOtp_signing :
    (∀ (mobileNumber otp : String) (cfg : SmsConfig),
      (sendSmsOtpParams mobileNumber otp cfg).password =
        sha1Hex (latin1Bytes cfg.password) ∧
      (sendSmsOtpParams mobileNumber otp cfg).key =
        sha512Hex (utf8Bytes (jsTrim cfg.username ++ jsTrim cfg.senderId
          ++ jsTrim (cfg.messagePre ++ " " ++ otp ++ " " ++
            cfg.messageSuf) ++ jsTrim cfg.secureKey))) ∧
    testSmsKey "U" "S" "M" "K" = sha512Hex (utf8Bytes "USMK") ∧
    sha512Hex (utf8Bytes "USMK") =
      "b30696328ad8a2192bd92ea95de03bf7da56f010ef55ff6c49a24298f821d68b9695ea8ef89bfeb4babd165d1cac7845af4b8af061f45e7edeee7679f9acb5b7" ∧
    sha1Hex (latin1Bytes smsDefaults.password) =
      "0661dda93c98429d575f6731470638d20f605ab2" := by
  refine ⟨fun m o c => ⟨rfl, rfl⟩, ?_, ?_, ?_⟩
  · have h : jsTrim "U" ++ jsTrim "S" ++ jsTrim "M" ++ jsTrim "K"
        = "USMK" := by decide
    rw [testSmsKey, h]
  · decide
  · decide
